import Mathlib

/-!
Verification of the decision engine of the nest-octopus smart water-heating
controller, shallowly embedded from src/heating_controller.py (with the
device and rate collaborators of src/nest_client.py and src/octopus_client.py
modelled as environment-supplied results).  Times are modelled by an absolute
timestamp in minutes (a rational), together with the minute-of-day and weekday
the Python code extracts from datetime.now(); one such value stands for the
wall clock of a whole control cycle.  Rates, costs and durations are rationals.
-/

namespace NestOctopus

/-- Lexicographic character-list comparison by code point, the order Python
uses when comparing strings with le. -/
def pyLeChars : List Char → List Char → Bool
  | [], _ => true
  | _ :: _, [] => false
  | a :: as, b :: bs =>
    if a.val < b.val then true
    else if b.val < a.val then false
    else pyLeChars as bs

/-- Python string comparison a <= b (lexicographic by code point). -/
def pyLe (a b : String) : Bool := pyLeChars a.data b.data

/-- Zero-padded two-digit decimal rendering, as strftime produces for %H and %M. -/
def twoDigits (n : Nat) : String := if n < 10 then "0" ++ toString n else toString n

/-- Rendering of a minute-of-day count in the %H:%M format of strftime. -/
def fmtHM (m : Nat) : String := twoDigits (m / 60) ++ ":" ++ twoDigits (m % 60)

/-- The wall clock observed during one control cycle: the absolute timestamp in
minutes, the minute of the day, and the weekday index (0 = Monday), the three
projections of datetime.now() the controller reads. -/
structure DateTime where
  abs : ℚ
  minutesOfDay : Nat
  weekday : Nat
deriving DecidableEq

/-- now.strftime on the %H:%M pattern. -/
def strftimeHM (t : DateTime) : String := fmtHM t.minutesOfDay

/-- PEAK_START from config.py. -/
def PEAK_START : String := "16:00"

/-- PEAK_END from config.py. -/
def PEAK_END : String := "19:00"

/-- CHEAP_RATE_THRESHOLD from config.py (pence per kWh). -/
def CHEAP_RATE_THRESHOLD : ℚ := 15

/-- EXPENSIVE_RATE_THRESHOLD from config.py (pence per kWh). -/
def EXPENSIVE_RATE_THRESHOLD : ℚ := 25

/-- A heating window (dataclass HeatingWindow).  The source stores start_time
as an HH:MM string; here it is kept as the minute of day it denotes, and the
string the source compares is fmtHM start_min. -/
structure HeatingWindow where
  start_min : Nat
  duration : Nat
  days : List Nat
  enabled : Bool
deriving DecidableEq

/-- A heating session (dataclass HeatingSession); times are absolute minutes. -/
structure HeatingSession where
  start_time : ℚ
  end_time : Option ℚ
  rate : ℚ
  completed : Bool
deriving DecidableEq

/-- The mutable per-controller state of SmartHeatingController. -/
structure ControllerState where
  mode : String
  boost_end_time : Option ℚ
  heating_windows : List HeatingWindow
  current_session : Option HeatingSession
deriving DecidableEq

/-- is_peak_time: PEAK_START <= now <= PEAK_END on the %H:%M rendering of the
current time, compared as Python strings. -/
def is_peak_time (now : DateTime) : Bool :=
  pyLe PEAK_START (strftimeHM now) && pyLe (strftimeHM now) PEAK_END

/-- The window-end string the loop body computes: strptime of the start plus
duration minutes, rendered back through strftime %H:%M (so wrapping past
midnight reduces modulo one day). -/
def window_end_str (w : HeatingWindow) : String :=
  fmtHM ((w.start_min + w.duration) % 1440)

/-- One iteration of the window loop in should_heat_water: the window is
enabled, lists the current weekday, and start <= now <= end as strings. -/
def windowMatches (w : HeatingWindow) (now : DateTime) : Bool :=
  w.enabled && w.days.contains now.weekday &&
    (pyLe (fmtHM w.start_min) (strftimeHM now) &&
      pyLe (strftimeHM now) (window_end_str w))

/-- The window loop of should_heat_water: return True at the first window that
matches, otherwise fall through. -/
def findWindowMatch : List HeatingWindow → DateTime → Bool
  | [], _ => false
  | w :: ws, now => if windowMatches w now then true else findWindowMatch ws now

/-- should_heat_water from heating_controller.py: off is never heating; boost
heats strictly before the expiry and not at all when the expiry is unset; any
other mode suppresses heating at peak time, heats inside a matching enabled
window, and otherwise heats exactly when the rate is strictly below
CHEAP_RATE_THRESHOLD. -/
def should_heat_water (st : ControllerState) (now : DateTime)
    (current_rate : ℚ) : Bool :=
  if st.mode = "off" then false
  else if st.mode = "boost" then
    match st.boost_end_time with
    | some b => decide (now.abs < b)
    | none => false
  else if is_peak_time now then false
  else if findWindowMatch st.heating_windows now then true
  else decide (current_rate < CHEAP_RATE_THRESHOLD)

/-- Python truthiness of the optional integer boost_duration (None and 0 are
falsy, every other integer is truthy). -/
def truthyOptInt : Option Int → Bool
  | none => false
  | some n => !(n = 0)

/-- set_mode from heating_controller.py: always assign the mode; assign a new
boost expiry only when the mode is boost and the duration is truthy; clear the
expiry only when the new mode is not boost. -/
def set_mode (st : ControllerState) (nowAbs : ℚ) (mode : String)
    (boost_duration : Option Int) : ControllerState :=
  let st1 := { st with mode := mode }
  if mode = "boost" ∧ truthyOptInt boost_duration = true then
    { st1 with boost_end_time := some (nowAbs + ((boost_duration.getD 0 : Int) : ℚ)) }
  else if mode ≠ "boost" then
    { st1 with boost_end_time := none }
  else st1

/-- add_heating_window from heating_controller.py. -/
def add_heating_window (st : ControllerState) (w : HeatingWindow) : ControllerState :=
  { st with heating_windows := st.heating_windows ++ [w] }

/-- Modelled from the spec: predictRateTrend belongs to the
temperature-optimization variant of the engine, which is absent from src; per
the spec it averages the two successive differences of the last three rolling
samples, ((r2-r1) + (r3-r2)) / 2, and returns 0 when fewer than 3 samples
exist. -/
def predictRateTrend (samples : List ℚ) : ℚ :=
  if samples.length < 3 then 0
  else
    match samples.reverse with
    | r3 :: r2 :: r1 :: _ => ((r2 - r1) + (r3 - r2)) / 2
    | _ => 0

/-- A row of the heating_sessions table as inserted by log_heating_session;
duration_minutes holds the value the Python code computes (a rational number
of minutes), before the SQLite column affinity is applied on read-back. -/
structure SessionRow where
  start_time : ℚ
  end_time : ℚ
  duration_minutes : ℚ
  rate : ℚ
  cost : ℚ
deriving DecidableEq

/-- The row the insert of log_heating_session writes for a session closed at
endTime: duration in minutes, cost = duration/60 * rate * 3 (3 kW heater). -/
def sessionRowOf (s : HeatingSession) (endTime : ℚ) : SessionRow :=
  let duration := endTime - s.start_time
  { start_time := s.start_time
    end_time := endTime
    duration_minutes := duration
    rate := s.rate
    cost := duration / 60 * s.rate * 3 }

/-- log_heating_session: return without writing unless the session is completed
with an end time; otherwise attempt the database insert (whose success or
exception the environment supplies) and report the rows written. -/
def log_heating_session (db : Except String Unit) (s : HeatingSession) :
    Except String (List SessionRow) :=
  if !s.completed then Except.ok []
  else
    match s.end_time with
    | none => Except.ok []
    | some e =>
      match db with
      | Except.ok _ => Except.ok [sessionRowOf s e]
      | Except.error m => Except.error m

/-- The dictionary get_cost_savings returns. -/
structure CostSavings where
  savings : ℚ
  actual_cost : ℚ
  peak_cost : ℚ
deriving DecidableEq

/-- The SQL expression duration_minutes / 60 evaluated per row by SQLite: the
INTEGER column affinity stores a whole-number duration as an integer, and the
division of two integers truncates toward zero; a fractional duration is
stored as a real and divided exactly. -/
def sqliteDiv60 (d : ℚ) : ℚ :=
  if d.den = 1 then ((Int.tdiv d.num 60 : ℤ) : ℚ) else d / 60

/-- get_cost_savings over the stored session rows whose start_time is at or
after the cutoff of the trailing period: actual_cost sums
duration_minutes * rate / 60 (rate is stored REAL, so this division is exact);
total_hours sums the per-row SQLite division duration_minutes / 60; the result
is all zeros when the actual-cost aggregate is NULL (no rows) or zero (falsy
in Python). -/
def get_cost_savings (rows : List SessionRow) (cutoff : ℚ) : CostSavings :=
  let inRange := rows.filter (fun r => decide (cutoff ≤ r.start_time))
  let actualSum : Option ℚ :=
    if inRange.isEmpty then none
    else some ((inRange.map (fun r => r.duration_minutes * r.rate / 60)).sum)
  match actualSum with
  | none => { savings := 0, actual_cost := 0, peak_cost := 0 }
  | some a =>
    if a = 0 then { savings := 0, actual_cost := 0, peak_cost := 0 }
    else
      let total_hours := (inRange.map (fun r => sqliteDiv60 r.duration_minutes)).sum
      let peak := total_hours * EXPENSIVE_RATE_THRESHOLD
      { savings := peak - a, actual_cost := a, peak_cost := peak }

/-- The cost-savings computation exactly as the specification words it, with
the per-row hours taken as the exact rational duration_minutes / 60; kept for
comparison against get_cost_savings as embedded from the source. -/
def get_cost_savings_specform (rows : List SessionRow) (cutoff : ℚ) : CostSavings :=
  let inRange := rows.filter (fun r => decide (cutoff ≤ r.start_time))
  if inRange.isEmpty then { savings := 0, actual_cost := 0, peak_cost := 0 }
  else
    let a := (inRange.map (fun r => r.duration_minutes / 60 * r.rate)).sum
    let peak := (inRange.map (fun r => r.duration_minutes / 60)).sum *
      EXPENSIVE_RATE_THRESHOLD
    { savings := peak - a, actual_cost := a, peak_cost := peak }

/-- The results of the external collaborators during one control cycle:
the boolean returned by refresh_token_if_needed (which catches its own
exceptions), the optional rate from get_current_rate (which returns None on
any failure), the boolean from set_hot_water_state (likewise), and the
outcome, normal or exceptional, of each database access. -/
structure Env where
  refreshOk : Bool
  currentRate : Option ℚ
  hotWaterOk : Bool
  logRate : Except String Unit
  logSession : Except String Unit
  avgDuration : Except String ℚ
  costSavings : Except String CostSavings

/-- The externally visible writes and commands of one cycle: rows appended to
the rate log, rows appended to the session log, and the arguments of the hot
water commands sent to the device. -/
structure Trace where
  rateInserts : List (ℚ × ℚ)
  sessionInserts : List SessionRow
  hotWaterCmds : List Bool
deriving DecidableEq

/-- The empty trace. -/
def Trace.empty : Trace := { rateInserts := [], sessionInserts := [], hotWaterCmds := [] }

/-- The success dictionary run returns. -/
structure RunOk where
  current_rate : ℚ
  mode : String
  is_heating : Bool
  is_peak : Bool
  boost_remaining : ℚ
  avg_heating_duration : ℚ
  cost_savings : CostSavings
deriving DecidableEq

/-- The dictionary run returns: success with the status record, or the
failure record produced either by the early return on a missing rate or by
the catch-all conversion of an exception into an error message. -/
inductive RunOutcome where
  | success (r : RunOk)
  | failure (error : String)
deriving DecidableEq

/-- The tail of the cycle after session handling: issue the hot water command
(result discarded), then build the status record, during which the two
statistics queries may raise. -/
def finishCycle (env : Env) (st1 : ControllerState) (now : DateTime)
    (current_rate : ℚ) (should_heat is_peak : Bool) (tr : Trace) :
    RunOutcome × ControllerState × Trace :=
  let tr1 := { tr with hotWaterCmds := tr.hotWaterCmds ++ [should_heat] }
  match env.avgDuration with
  | Except.error e => (RunOutcome.failure e, st1, tr1)
  | Except.ok avg =>
    match env.costSavings with
    | Except.error e => (RunOutcome.failure e, st1, tr1)
    | Except.ok cs =>
      (RunOutcome.success
        { current_rate := current_rate
          mode := st1.mode
          is_heating := should_heat
          is_peak := is_peak
          boost_remaining :=
            match st1.boost_end_time with
            | some b => b - now.abs
            | none => 0
          avg_heating_duration := avg
          cost_savings := cs },
        st1, tr1)

/-- run from heating_controller.py, one control cycle: refresh the device auth
token (return value discarded by the source), fetch the rate and return the
failure record if it is None, log the rate, decide, open or close the session
at a boundary, command the device, and assemble the status record; every
exception along the way becomes a failure record carrying its message, with
the state mutations made so far kept. -/
def run (env : Env) (st : ControllerState) (now : DateTime) :
    RunOutcome × ControllerState × Trace :=
  match env.currentRate with
  | none => (RunOutcome.failure "Failed to get current rate", st, Trace.empty)
  | some current_rate =>
    match env.logRate with
    | Except.error e => (RunOutcome.failure e, st, Trace.empty)
    | Except.ok _ =>
      let tr0 := { Trace.empty with rateInserts := [(now.abs, current_rate)] }
      let should_heat := should_heat_water st now current_rate
      let is_peak := is_peak_time now
      match st.current_session, should_heat with
      | none, true =>
        let s0 : HeatingSession :=
          { start_time := now.abs, end_time := none,
            rate := current_rate, completed := false }
        finishCycle env { st with current_session := some s0 }
          now current_rate should_heat is_peak tr0
      | some s, false =>
        let s1 := { s with end_time := some now.abs, completed := true }
        match log_heating_session env.logSession s1 with
        | Except.error m =>
          (RunOutcome.failure m, { st with current_session := some s1 }, tr0)
        | Except.ok rows =>
          finishCycle env { st with current_session := none }
            now current_rate should_heat is_peak
            { tr0 with sessionInserts := rows }
      | _, _ => finishCycle env st now current_rate should_heat is_peak tr0

theorem findWindowMatch_of_mem {ws : List HeatingWindow} {now : DateTime}
    {w : HeatingWindow} (hw : w ∈ ws) (hm : windowMatches w now = true) :
    findWindowMatch ws now = true := by
  induction ws with
  | nil => cases hw
  | cons a as ih =>
    rcases List.mem_cons.mp hw with rfl | h
    · simp [findWindowMatch, hm]
    · cases hA : windowMatches a now <;> simp [findWindowMatch, hA, ih h]

/-- Claim C1: in optimized mode, whenever the %H:%M rendering of the current
time lies between PEAK_START and PEAK_END, inclusive at both boundaries under
lexical string comparison, should_heat_water returns false for every current
rate and every configured heating window, including windows that would
otherwise match. -/
theorem optimized_peak_time_never_heats
    (st : ControllerState) (now : DateTime) (rate : ℚ)
    (hmode : st.mode = "optimized")
    (h1 : pyLe PEAK_START (strftimeHM now) = true)
    (h2 : pyLe (strftimeHM now) PEAK_END = true) :
    should_heat_water st now rate = false := by
  have hp : is_peak_time now = true := by simp [is_peak_time, h1, h2]
  simp [should_heat_water, hmode, hp]

/-- Witness for C1: 17:00 on a Wednesday, inside the peak interval, with a
cheap rate and an enabled window covering 16:30 to 17:30 that would otherwise
match, and heating is still off. -/
theorem optimized_peak_time_never_heats_witness :
    should_heat_water
      ⟨"optimized", none, [⟨990, 60, [2], true⟩], none⟩
      ⟨1020, 1020, 2⟩ 5 = false :=
  optimized_peak_time_never_heats _ _ _ rfl (by decide) (by decide)

/-- Claim C2: in optimized mode at a non-peak time, an enabled window listing
the current weekday whose start and end strings bracket the current time
forces should_heat_water to true whatever the current rate; membership of any
such window in the list suffices, so the first match fixing the result is
order-independent. -/
theorem optimized_window_match_heats
    (st : ControllerState) (now : DateTime) (rate : ℚ) (w : HeatingWindow)
    (hmode : st.mode = "optimized")
    (hpeak : is_peak_time now = false)
    (hw : w ∈ st.heating_windows)
    (hen : w.enabled = true)
    (hday : now.weekday ∈ w.days)
    (h1 : pyLe (fmtHM w.start_min) (strftimeHM now) = true)
    (h2 : pyLe (strftimeHM now) (window_end_str w) = true) :
    should_heat_water st now rate = true := by
  have hwm : windowMatches w now = true := by
    simp [windowMatches, hen, hday, h1, h2]
  have hfm := findWindowMatch_of_mem hw hwm
  simp [should_heat_water, hmode, hpeak, hfm]

/-- Witness for C2: window 13:00 for 60 minutes on the current weekday,
now 13:30, non-peak, and an expensive rate of 100, still heating. -/
theorem optimized_window_match_heats_witness :
    should_heat_water
      ⟨"optimized", none, [⟨780, 60, [2], true⟩], none⟩
      ⟨810, 810, 2⟩ 100 = true :=
  optimized_window_match_heats _ _ _ ⟨780, 60, [2], true⟩ rfl (by decide)
    (by decide) (by decide) (by decide) (by decide) (by decide)

/-- Claim C3: in boost mode should_heat_water is true exactly when now is
strictly before the boost expiry, and an unset expiry behaves as already
expired. -/
theorem boost_heats_iff_now_before_expiry
    (st : ControllerState) (now : DateTime) (rate : ℚ)
    (hmode : st.mode = "boost") :
    (should_heat_water st now rate = true ↔
      ∃ b, st.boost_end_time = some b ∧ now.abs < b) ∧
    (st.boost_end_time = none → should_heat_water st now rate = false) := by
  cases hb : st.boost_end_time with
  | none => exact ⟨by simp [should_heat_water, hmode, hb], fun _ => by
      simp [should_heat_water, hmode, hb]⟩
  | some b => exact ⟨by simp [should_heat_water, hmode, hb], fun h => by
      simp [hb] at h⟩

/-- Witness for C3: boost expiring at absolute minute 100, clock at minute 50,
heating despite a high rate. -/
theorem boost_heats_iff_now_before_expiry_witness :
    should_heat_water ⟨"boost", some 100, [], none⟩ ⟨50, 50, 0⟩ 100 = true :=
  (boost_heats_iff_now_before_expiry _ _ _ rfl).1.mpr ⟨100, rfl, by norm_num⟩

/-- Claim C4: in optimized mode at a non-peak time with no matching enabled
window, should_heat_water is true exactly when the current rate is strictly
below CHEAP_RATE_THRESHOLD, so a rate equal to the threshold does not heat. -/
theorem optimized_no_window_rate_threshold
    (st : ControllerState) (now : DateTime) (rate : ℚ)
    (hmode : st.mode = "optimized")
    (hpeak : is_peak_time now = false)
    (hwin : findWindowMatch st.heating_windows now = false) :
    (should_heat_water st now rate = true ↔ rate < CHEAP_RATE_THRESHOLD) ∧
    should_heat_water st now CHEAP_RATE_THRESHOLD = false := by
  constructor
  · simp [should_heat_water, hmode, hpeak, hwin]
  · simp [should_heat_water, hmode, hpeak, hwin]

/-- Witness for C4: no windows, 13:30 non-peak, rate 10 heats and rate exactly
15 does not. -/
theorem optimized_no_window_rate_threshold_witness :
    should_heat_water ⟨"optimized", none, [], none⟩ ⟨810, 810, 2⟩ 10 = true ∧
    should_heat_water ⟨"optimized", none, [], none⟩ ⟨810, 810, 2⟩ 15 = false :=
  ⟨(optimized_no_window_rate_threshold _ _ 10 rfl (by decide) (by decide)).1.mpr
      (by norm_num [CHEAP_RATE_THRESHOLD]),
    (optimized_no_window_rate_threshold _ _ 15 rfl (by decide) (by decide)).2⟩

/-- Claim C9: predictRateTrend over at least three samples averages the two
successive differences of the last three, returns 0 with fewer than three
samples, and maps 10, 12, 14 to 2. -/
theorem predictRateTrend_formula :
    (∀ (pre : List ℚ) (r1 r2 r3 : ℚ),
        predictRateTrend (pre ++ [r1, r2, r3]) = ((r2 - r1) + (r3 - r2)) / 2) ∧
    (∀ s : List ℚ, s.length < 3 → predictRateTrend s = 0) ∧
    predictRateTrend [10, 12, 14] = 2 := by
  refine ⟨?_, ?_, ?_⟩
  · intro pre r1 r2 r3
    have hlen : ¬ (pre ++ [r1, r2, r3]).length < 3 := by
      simp [List.length_append]
    have hrev : (pre ++ [r1, r2, r3]).reverse = r3 :: r2 :: r1 :: pre.reverse := by
      simp
    rw [predictRateTrend, if_neg hlen, hrev]
  · intro s hs
    rw [predictRateTrend, if_pos hs]
  · norm_num [predictRateTrend]

/-- Witness for C9: two samples are fewer than three, so the trend is 0. -/
theorem predictRateTrend_formula_witness : predictRateTrend [10, 12] = 0 :=
  predictRateTrend_formula.2.1 [10, 12] (by decide)

/-- Claim C10: setting boost mode with a falsy duration (None or 0) changes
only the mode and leaves the boost expiry exactly as it was; a nonzero
duration assigns expiry now plus that many minutes; a non-boost mode clears
the expiry; and a boost set with no duration over an unset expiry never
heats. -/
theorem set_mode_boost_duration_frame (st : ControllerState) (nowAbs : ℚ) :
    (∀ d : Option Int, d = none ∨ d = some 0 →
        set_mode st nowAbs "boost" d = { st with mode := "boost" }) ∧
    (∀ k : Int, k ≠ 0 →
        set_mode st nowAbs "boost" (some k) =
          { st with mode := "boost", boost_end_time := some (nowAbs + (k : ℚ)) }) ∧
    (∀ (m : String) (d : Option Int), m ≠ "boost" →
        set_mode st nowAbs m d = { st with mode := m, boost_end_time := none }) ∧
    (st.boost_end_time = none → ∀ (now2 : DateTime) (rate : ℚ),
        should_heat_water (set_mode st nowAbs "boost" none) now2 rate = false) := by
  have h1 : ∀ d : Option Int, d = none ∨ d = some 0 →
      set_mode st nowAbs "boost" d = { st with mode := "boost" } := by
    rintro d (rfl | rfl) <;> simp [set_mode, truthyOptInt]
  refine ⟨h1, ?_, ?_, ?_⟩
  · intro k hk
    simp [set_mode, truthyOptInt, hk]
  · intro m d hm
    simp [set_mode, hm]
  · intro hnone now2 rate
    rw [h1 none (Or.inl rfl)]
    simp [should_heat_water, hnone]

/-- Witness for C10: a state with a stale expiry at minute 999 keeps exactly
that expiry when boost is requested with no duration. -/
theorem set_mode_boost_duration_frame_witness :
    set_mode ⟨"off", some 999, [], none⟩ 0 "boost" none =
      ⟨"boost", some 999, [], none⟩ :=
  (set_mode_boost_duration_frame ⟨"off", some 999, [], none⟩ 0).1 none (Or.inl rfl)

theorem finishCycle_failure_sources
    {env : Env} {st1 : ControllerState} {now : DateTime} {cr : ℚ}
    {sh ip : Bool} {tr : Trace} {m : String} {st2 : ControllerState} {tr2 : Trace}
    (h : finishCycle env st1 now cr sh ip tr = (RunOutcome.failure m, st2, tr2)) :
    env.avgDuration = Except.error m ∨ env.costSavings = Except.error m := by
  unfold finishCycle at h
  cases had : env.avgDuration with
  | error e =>
    rw [had] at h
    simp only [Prod.mk.injEq, RunOutcome.failure.injEq] at h
    obtain ⟨rfl, -, -⟩ := h
    exact Or.inl rfl
  | ok avg =>
    rw [had] at h
    cases hcs : env.costSavings with
    | error e =>
      rw [hcs] at h
      simp only [Prod.mk.injEq, RunOutcome.failure.injEq] at h
      obtain ⟨rfl, -, -⟩ := h
      exact Or.inr rfl
    | ok c =>
      rw [hcs] at h
      simp at h

/-- Claim C5: a cycle whose rate fetch yields None returns the failure record,
issues no device command, writes nothing, and leaves the whole controller
state untouched; and every failure record a cycle can return carries either
that fixed message or the message of the exception raised by one of the
fallible steps, no exception escaping run. -/
theorem run_rate_failure_frame_and_errors_converted
    (env : Env) (st : ControllerState) (now : DateTime) :
    (env.currentRate = none →
        run env st now =
          (RunOutcome.failure "Failed to get current rate", st, Trace.empty)) ∧
    (∀ (m : String) (st1 : ControllerState) (tr : Trace),
        run env st now = (RunOutcome.failure m, st1, tr) →
        m = "Failed to get current rate" ∨ env.logRate = Except.error m ∨
        env.logSession = Except.error m ∨ env.avgDuration = Except.error m ∨
        env.costSavings = Except.error m) := by
  constructor
  · intro h
    simp [run, h]
  · intro m st1 tr h
    cases hcr : env.currentRate with
    | none =>
      unfold run at h
      rw [hcr] at h
      simp only [Prod.mk.injEq, RunOutcome.failure.injEq] at h
      exact Or.inl h.1.symm
    | some r =>
      unfold run at h
      rw [hcr] at h
      cases hlr : env.logRate with
      | error e =>
        rw [hlr] at h
        simp only [Prod.mk.injEq, RunOutcome.failure.injEq] at h
        obtain ⟨rfl, -, -⟩ := h
        exact Or.inr (Or.inl rfl)
      | ok u =>
        cases u
        rw [hlr] at h
        simp only at h
        cases hsess : st.current_session with
        | none =>
          rw [hsess] at h
          cases hsh : should_heat_water st now r with
          | true =>
            rw [hsh] at h
            simp only at h
            rcases finishCycle_failure_sources h with h1 | h1
            · exact Or.inr (Or.inr (Or.inr (Or.inl h1)))
            · exact Or.inr (Or.inr (Or.inr (Or.inr h1)))
          | false =>
            rw [hsh] at h
            simp only at h
            rcases finishCycle_failure_sources h with h1 | h1
            · exact Or.inr (Or.inr (Or.inr (Or.inl h1)))
            · exact Or.inr (Or.inr (Or.inr (Or.inr h1)))
        | some s =>
          rw [hsess] at h
          cases hsh : should_heat_water st now r with
          | true =>
            rw [hsh] at h
            simp only at h
            rcases finishCycle_failure_sources h with h1 | h1
            · exact Or.inr (Or.inr (Or.inr (Or.inl h1)))
            · exact Or.inr (Or.inr (Or.inr (Or.inr h1)))
          | false =>
            rw [hsh] at h
            simp only at h
            unfold log_heating_session at h
            cases hls : env.logSession with
            | error e =>
              rw [hls] at h
              simp only [Bool.not_true, Bool.false_eq_true, if_false,
                Prod.mk.injEq, RunOutcome.failure.injEq] at h
              obtain ⟨rfl, -, -⟩ := h
              exact Or.inr (Or.inr (Or.inl rfl))
            | ok u2 =>
              cases u2
              rw [hls] at h
              simp only [Bool.not_true, Bool.false_eq_true, if_false] at h
              rcases finishCycle_failure_sources h with h1 | h1
              · exact Or.inr (Or.inr (Or.inr (Or.inl h1)))
              · exact Or.inr (Or.inr (Or.inr (Or.inr h1)))

/-- Witness for C5: a cycle at a concrete state with the rate feed down
returns exactly the failure record with no command and no state change. -/
theorem run_rate_failure_frame_witness :
    run ⟨true, none, true, Except.ok (), Except.ok (), Except.ok 60,
          Except.ok ⟨0, 0, 0⟩⟩
        ⟨"optimized", none, [], none⟩ ⟨810, 810, 2⟩ =
      (RunOutcome.failure "Failed to get current rate",
        ⟨"optimized", none, [], none⟩, Trace.empty) :=
  (run_rate_failure_frame_and_errors_converted _ _ _).1 rfl

/-- Claim C6: when the decision turns false with an open session and the
database accepts the insert, the cycle clears the session and persists exactly
one row whose cost is duration/60 times the opening rate times 3; in every
other configuration the cycle persists no session row. -/
theorem run_close_session_persists_cost
    (env : Env) (st : ControllerState) (now : DateTime) (rate : ℚ)
    (hr : env.currentRate = some rate)
    (hlr : env.logRate = Except.ok ())
    (hls : env.logSession = Except.ok ())
    (had : ∃ a, env.avgDuration = Except.ok a)
    (hcs : ∃ c, env.costSavings = Except.ok c) :
    (∀ s, st.current_session = some s →
        should_heat_water st now rate = false →
        (run env st now).2.1.current_session = none ∧
        (run env st now).2.2.sessionInserts =
          [{ start_time := s.start_time, end_time := now.abs,
             duration_minutes := now.abs - s.start_time, rate := s.rate,
             cost := (now.abs - s.start_time) / 60 * s.rate * 3 }]) ∧
    ((st.current_session = none ∨ should_heat_water st now rate = true) →
        (run env st now).2.2.sessionInserts = []) := by
  obtain ⟨a, had⟩ := had
  obtain ⟨c, hcs⟩ := hcs
  constructor
  · intro s hsess hsh
    simp only [run, hr, hlr, hsess, hsh, log_heating_session, hls, finishCycle,
      had, hcs, sessionRowOf, Bool.not_true, Bool.false_eq_true, if_false]
    simp
  · intro hcase
    rcases hcase with hnone | htrue
    · cases hsh : should_heat_water st now rate <;>
        simp [run, hr, hlr, hnone, hsh, finishCycle, had, hcs, Trace.empty]
    · cases hsess : st.current_session <;>
        simp [run, hr, hlr, hsess, htrue, finishCycle, had, hcs, Trace.empty]

/-- Witness for C6: a session opened at minute 0 with rate 20 and closed at
minute 60 persists the single row with duration 60 and cost 60. -/
theorem run_close_session_persists_cost_witness :
    (run ⟨true, some 30, true, Except.ok (), Except.ok (), Except.ok 60,
          Except.ok ⟨0, 0, 0⟩⟩
        ⟨"off", none, [], some ⟨0, none, 20, false⟩⟩ ⟨60, 60, 0⟩).2.1.current_session
        = none ∧
    (run ⟨true, some 30, true, Except.ok (), Except.ok (), Except.ok 60,
          Except.ok ⟨0, 0, 0⟩⟩
        ⟨"off", none, [], some ⟨0, none, 20, false⟩⟩ ⟨60, 60, 0⟩).2.2.sessionInserts
        = [⟨0, 60, 60, 20, 60⟩] := by
  have h := (run_close_session_persists_cost
      ⟨true, some 30, true, Except.ok (), Except.ok (), Except.ok 60,
        Except.ok ⟨0, 0, 0⟩⟩
      ⟨"off", none, [], some ⟨0, none, 20, false⟩⟩ ⟨60, 60, 0⟩ 30
      rfl rfl rfl ⟨60, rfl⟩ ⟨⟨0, 0, 0⟩, rfl⟩).1
      ⟨0, none, 20, false⟩ rfl (by decide)
  refine ⟨h.1, ?_⟩
  rw [h.2]
  norm_num [SessionRow.mk.injEq]

/-- Counterexample to C8: a cycle whose token refresh failed still fetches the
rate, logs it, evaluates the decision and issues the hot-water command,
returning success rather than aborting with an error. -/
theorem run_refresh_failure_not_aborting_cx :
    run ⟨false, some 10, true, Except.ok (), Except.ok (), Except.ok 60,
          Except.ok ⟨0, 0, 0⟩⟩
        ⟨"off", none, [], none⟩ ⟨810, 810, 2⟩ =
      (RunOutcome.success ⟨10, "off", false, false, 0, 60, ⟨0, 0, 0⟩⟩,
        ⟨"off", none, [], none⟩, ⟨[(810, 10)], [], [false]⟩) := by
  decide

/-- Claim C8 as amended: the boolean returned by the token refresh is
discarded by run, so a cycle behaves identically whether the refresh
succeeded or failed: same outcome, same state, same commands. -/
theorem run_independent_of_refresh_result
    (env : Env) (st : ControllerState) (now : DateTime) (b : Bool) :
    run { env with refreshOk := b } st now = run env st now := by
  cases env
  rfl

/-- Sum of duration_minutes * rate / 60 over the stored rows in range, the
aggregate SQLite computes exactly because rate is stored REAL. -/
def actualCostSum (rows : List SessionRow) (cutoff : ℚ) : ℚ :=
  ((rows.filter (fun r => decide (cutoff ≤ r.start_time))).map
    (fun r => r.duration_minutes * r.rate / 60)).sum

/-- Sum of the per-row SQLite division duration_minutes / 60 over the rows in
range, truncating on whole-minute durations. -/
def sqliteHoursSum (rows : List SessionRow) (cutoff : ℚ) : ℚ :=
  ((rows.filter (fun r => decide (cutoff ≤ r.start_time))).map
    (fun r => sqliteDiv60 r.duration_minutes)).sum

/-- Counterexample to C7: one in-range session of 90 whole minutes at rate 20.
The claimed formula gives peak cost 90/60 * 25 = 37.5 and savings 7.5, but the
code stores 90 as an integer and SQLite divides it by 60 as integers, so the
code returns peak cost 25 and savings -5. -/
theorem get_cost_savings_integer_division_cx :
    get_cost_savings [⟨0, 90, 90, 20, 30⟩] 0 = ⟨-5, 30, 25⟩ ∧
    get_cost_savings_specform [⟨0, 90, 90, 20, 30⟩] 0 = ⟨15 / 2, 30, 75 / 2⟩ ∧
    get_cost_savings [⟨0, 90, 90, 20, 30⟩] 0 ≠
      get_cost_savings_specform [⟨0, 90, 90, 20, 30⟩] 0 := by
  have ht : Int.tdiv 90 60 = 1 := by decide
  refine ⟨?_, ?_, ?_⟩
  · norm_num [get_cost_savings, sqliteDiv60, EXPENSIVE_RATE_THRESHOLD,
      CostSavings.mk.injEq, ht]
  · norm_num [get_cost_savings_specform, EXPENSIVE_RATE_THRESHOLD,
      CostSavings.mk.injEq]
  · norm_num [get_cost_savings, get_cost_savings_specform, sqliteDiv60,
      EXPENSIVE_RATE_THRESHOLD, CostSavings.mk.injEq, ht]

/-- Claim C7 as amended: get_cost_savings returns zeros whenever the
actual-cost aggregate over the in-range sessions is zero (in particular when
none are in range), and otherwise returns actual cost
sum of duration * rate / 60, peak cost equal to the sum of the per-row SQLite
divisions duration / 60 (truncating integer division on whole-minute
durations) times EXPENSIVE_RATE_THRESHOLD, and savings peak minus actual. -/
theorem get_cost_savings_sqlite_formula (rows : List SessionRow) (cutoff : ℚ) :
    (actualCostSum rows cutoff = 0 →
        get_cost_savings rows cutoff = ⟨0, 0, 0⟩) ∧
    (actualCostSum rows cutoff ≠ 0 →
        get_cost_savings rows cutoff =
          { savings := sqliteHoursSum rows cutoff * EXPENSIVE_RATE_THRESHOLD -
              actualCostSum rows cutoff,
            actual_cost := actualCostSum rows cutoff,
            peak_cost := sqliteHoursSum rows cutoff * EXPENSIVE_RATE_THRESHOLD }) := by
  by_cases hemp : (rows.filter (fun r => decide (cutoff ≤ r.start_time))).isEmpty
  · have hnil : rows.filter (fun r => decide (cutoff ≤ r.start_time)) = [] :=
      List.isEmpty_iff.mp hemp
    constructor
    · intro _
      simp [get_cost_savings, hemp]
    · intro hne
      exact absurd (by simp [actualCostSum, hnil]) hne
  · constructor
    · intro hzero
      simp only [actualCostSum] at hzero
      simp [get_cost_savings, hemp, hzero]
    · intro hne
      simp only [actualCostSum] at hne
      simp [get_cost_savings, actualCostSum, sqliteHoursSum, hemp, hne]

/-- Witness for the amended C7 at the example of the claim: one 60-minute
session at rate 20 gives actual cost 20, peak cost 25 and savings 5, where
the truncating and the exact division agree. -/
theorem get_cost_savings_sqlite_formula_witness :
    get_cost_savings [⟨0, 60, 60, 20, 60⟩] 0 = ⟨5, 20, 25⟩ := by
  have h := (get_cost_savings_sqlite_formula [⟨0, 60, 60, 20, 60⟩] 0).2
    (by norm_num [actualCostSum])
  rw [h]
  norm_num [actualCostSum, sqliteHoursSum, sqliteDiv60, EXPENSIVE_RATE_THRESHOLD,
    CostSavings.mk.injEq]

end NestOctopus
